/-
  Verification development for the Soroban contract-client runtime of this
  repository: the AssembledTransaction state machine (assembled_transaction),
  the SentTransaction submit-and-poll loop (sent_transaction.ts) and the two
  ContractClient factories (the one appended to sent_transaction.ts and the
  legacy one in contract_client/client.ts).

  Modelling conventions.
  * The XDR binary codec (toXDR / fromXDR / base64) is an external collaborator
    declared out of scope by the specification.  We identify every XDR value
    with its decoded canonical form, so serialisation (`xdrEncode`) and
    deserialisation (`xdrDecode`) are the identity and the codec round-trip law
    `fromXDR (toXDR x) = x`, guaranteed by the external library, holds
    definitionally.  Likewise StrKey, an injective external codec, is modelled
    by carrying account public keys directly as their encoded strings.
  * Asynchronous methods are modelled as pure functions; RPC endpoints and
    signer callbacks become function-typed parameters; the current wall-clock
    second becomes an explicit `now : Nat` parameter.
  * Thrown JS exceptions become `Except SdkError`; the named error classes of
    `AssembledTransaction.Errors` / `SentTransaction.Errors` become
    constructors of `SdkError`, other `throw new Error(...)` sites become
    `SdkError.genericError`, and a re-raised caught value becomes
    `SdkError.raised`.
-/
import Mathlib

/-- The platform's tagged host-value interchange format (`xdr.ScVal`),
restricted to untagged leaves; the claims only inspect the tag. -/
inductive ScVal where
  | scvVoid
  | scvBool (b : Bool)
  | scvU32 (n : Nat)
  | scvSym (s : String)
  | scvBytes (bs : List Nat)
deriving DecidableEq, Repr

/-- `val.switch().name` on an `xdr.ScVal`. -/
def ScVal.switchName : ScVal → String
  | .scvVoid => "scvVoid"
  | .scvBool _ => "scvBool"
  | .scvU32 _ => "scvU32"
  | .scvSym _ => "scvSymbol"
  | .scvBytes _ => "scvBytes"

/-- `xdr.SorobanCredentials`: either the transaction source account
(`sorobanCredentialsSourceAccount`) or explicit address credentials
(`sorobanCredentialsAddress`).  The nested `SCAddress` is modelled as the
StrKey-encoded ed25519 account key (the code paths verified here call
`.address().accountId().ed25519()`, which presumes an account address). -/
inductive SorobanCredentials where
  | sourceAccount
  | address (addr : String) (signature : ScVal) (signatureExpirationLedger : Nat)
deriving DecidableEq, Repr

/-- `xdr.SorobanAuthorizationEntry`; the root invocation is never inspected by
the verified code paths and is omitted. -/
structure SorobanAuthorizationEntry where
  credentials : SorobanCredentials
deriving DecidableEq, Repr

/-- A ledger key of the resource footprint, carried opaquely. -/
structure LedgerKey where
  key : String
deriving DecidableEq, Repr

/-- `xdr.LedgerFootprint`. -/
structure LedgerFootprint where
  readOnly : List LedgerKey
  readWrite : List LedgerKey
deriving DecidableEq, Repr

/-- `xdr.SorobanResources`; only the footprint is inspected. -/
structure SorobanResources where
  footprint : LedgerFootprint
deriving DecidableEq, Repr

/-- `xdr.SorobanTransactionData`. -/
structure SorobanTransactionData where
  resources : SorobanResources
  resourceFee : Nat
deriving DecidableEq, Repr

/-- Transaction time bounds; `setTimeout t` at wall-clock second `now`
produces `minTime = 0, maxTime = now + t` (cloning with
`timebounds: undefined` first clears any previous bounds). -/
structure Timebounds where
  minTime : Nat
  maxTime : Nat
deriving DecidableEq, Repr

/-- The single `Operation.InvokeHostFunction` of an assembled transaction;
`auth` is optional exactly as in the `.auth ?? []` call sites. -/
structure InvokeHostFunctionOp where
  auth : Option (List SorobanAuthorizationEntry)
deriving DecidableEq, Repr

/-- The transaction object produced by `TransactionBuilder.build()` (`Tx`).
`TransactionBuilder.cloneFrom(built, ...)` preserves every field not
mentioned in its option object, which `{ t with ... }` mirrors. -/
structure Tx where
  source : String
  seqNum : Nat
  fee : Nat
  timebounds : Timebounds
  sorobanData : Option SorobanTransactionData
  operations : List InvokeHostFunctionOp
deriving DecidableEq, Repr

/-- Canonical-form model of the external XDR codec: encoding is the
identity on the decoded canonical value (see the header comment). -/
def xdrEncode {α : Type} (a : α) : α := a

/-- Canonical-form model of the external XDR codec's decoder; inverse of
`xdrEncode` by definition, as the external library guarantees. -/
def xdrDecode {α : Type} (a : α) : α := a

/-- A caught JS value `e`; `toStringVal = some s` means `e` implements
`toString` and `e.toString() = s`. -/
structure JsError where
  toStringVal : Option String
deriving DecidableEq, Repr

/-- Modelled from the spec: `implementsToString` lives in the missing src
utils module; per the spec it tests whether the caught value has a string
representation. -/
def implementsToString (e : JsError) : Bool := e.toStringVal.isSome

/-- The error kinds thrown by the runtime: the classes of
`AssembledTransaction.Errors` and `SentTransaction.Errors`, plus
`genericError` for plain `throw new Error(...)` and `raised` for re-raised
caught values. -/
inductive SdkError where
  | expiredState
  | needsMoreSignatures
  | noSignatureNeeded
  | noUnsignedNonInvokerAuthEntries
  | noSigner
  | notYetSimulated
  | fakeAccount
  | sendFailed
  | sendResultOnly
  | transactionStillPending
  | genericError (msg : String)
  | raised (e : JsError)
deriving DecidableEq, Repr

/-- `Api.SimulateHostFunctionResult`: the serialisable extract of a successful
simulation (`auth` entries and the return value). -/
structure SimulateHostFunctionResult where
  auth : List SorobanAuthorizationEntry
  retval : ScVal
deriving DecidableEq, Repr

/-- `Api.SimulateTransactionResponse`, tagged as the `Api.isSimulationError` /
`isSimulationRestore` / `isSimulationSuccess` predicates distinguish it.  In
the success and restore cases `transactionData` is the value the response's
`SorobanDataBuilder` builds. -/
inductive SimulateTransactionResponse where
  | simError (err : String)
  | restore (result : Option SimulateHostFunctionResult)
      (transactionData : SorobanTransactionData)
  | success (result : Option SimulateHostFunctionResult)
      (transactionData : SorobanTransactionData)
deriving DecidableEq, Repr

/-- An entry of `options.errorTypes`: `{ message }`. -/
structure ErrorMessage where
  message : String
deriving DecidableEq, Repr

/-- `AssembledTransactionOptions<T>`: the frozen combination of ClientOptions,
MethodOptions, method name, marshalled args, result parser and error-type
table. -/
structure AssembledTransactionOptions (T : Type) where
  method : String
  args : Option (List ScVal)
  rpcUrl : String
  networkPassphrase : String
  contractId : String
  allowHttp : Option Bool
  publicKey : Option String
  signTransaction : Option (Tx → Tx)
  signAuthEntry : Option (String → String)
  fee : Option Nat
  timeoutInSeconds : Option Nat
  simulate : Option Bool
  errorTypes : Option (List (Nat × ErrorMessage))
  parseResultXdr : ScVal → Except JsError T

/-- The `AssembledTransaction<T>` state: options plus the mutable fields
`raw` (the in-progress TransactionBuilder, whose contents none of the
verified claims inspect), `built`, `simulation`, the two serialisable cache
fields, and `signed`. -/
structure AssembledTransaction (T : Type) where
  options : AssembledTransactionOptions T
  raw : Option Unit := none
  built : Option Tx := none
  simulation : Option SimulateTransactionResponse := none
  simulationResult : Option SimulateHostFunctionResult := none
  simulationTransactionData : Option SorobanTransactionData := none
  signed : Option Tx := none

/-- Modelled from the spec: `DEFAULT_TIMEOUT` lives in the missing src utils
module; the spec gives `timeoutInSeconds` the default 30. -/
def DEFAULT_TIMEOUT : Nat := 30

/-- The value of the `simulationData` getter: `{ result, transactionData }`. -/
structure SimulationData where
  result : SimulateHostFunctionResult
  transactionData : SorobanTransactionData
deriving DecidableEq, Repr

/-- The `simulationData` getter, without its write-through to the cache
fields (callers that mutate state re-apply the write-through explicitly):
returns the cached pair when both cache fields are present, otherwise reads
the live simulation, failing with `NotYetSimulated` when it is absent, a
generic simulation-failure error when it is an error response, `ExpiredState`
when it requires a restore, and a generic error when it lacks a `result`. -/
def simulationDataCore {T : Type} (tx : AssembledTransaction T) :
    Except SdkError SimulationData :=
  match tx.simulationResult, tx.simulationTransactionData with
  | some r, some d => .ok ⟨r, d⟩
  | _, _ =>
    match tx.simulation with
    | none => .error SdkError.notYetSimulated
    | some sim =>
      match sim with
      | .simError e =>
          .error (SdkError.genericError ("Transaction simulation failed: " ++ e))
      | .restore _ _ => .error SdkError.expiredState
      | .success result transactionData =>
        match result with
        | none => .error (SdkError.genericError
            "Expected an invocation simulation, but got no result field")
        | some r => .ok ⟨r, transactionData⟩

/-- The body of the serialised `toJSON` string: method name, the base64
envelope of `built` (absent when `built` is, per `this.built?.toXDR()`),
the auth entries and retval of the simulation result, and the soroban
transaction data, each in canonical XDR form. -/
structure TxJSON where
  method : String
  tx : Option Tx
  simulationResultAuth : List SorobanAuthorizationEntry
  simulationResultRetval : ScVal
  simulationTransactionData : SorobanTransactionData
deriving DecidableEq, Repr

/-- `AssembledTransaction.toJSON`: serialises method, `built?.toXDR()`, the
`simulationData` extracts; accessing `simulationData` throws when the
transaction has not been simulated and no cache is present. -/
def AssembledTransaction.toJSON {T : Type} (tx : AssembledTransaction T) :
    Except SdkError TxJSON :=
  match simulationDataCore tx with
  | .error e => .error e
  | .ok sd => .ok
      { method := tx.options.method
      , tx := tx.built.map xdrEncode
      , simulationResultAuth := sd.result.auth.map xdrEncode
      , simulationResultRetval := xdrEncode sd.result.retval
      , simulationTransactionData := xdrEncode sd.transactionData }

/-- The private `AssembledTransaction` constructor: defaults
`options.simulate` to `true`. -/
def AssembledTransaction.mkFromOptions {T : Type}
    (options : AssembledTransactionOptions T) : AssembledTransaction T :=
  { options := { options with simulate := some (options.simulate.getD true) } }

/-- `AssembledTransaction.fromJSON`: instantiates an unsimulated transaction
from the options (sans args) and rehydrates `built` and the two cache fields
from the JSON body; `simulation` itself is not restored.  A missing `tx`
field makes `TransactionBuilder.fromXDR(undefined)` throw, modelled as a
generic error. -/
def AssembledTransaction.fromJSON {T : Type}
    (options : AssembledTransactionOptions T) (j : TxJSON) :
    Except SdkError (AssembledTransaction T) :=
  match j.tx with
  | none => .error (SdkError.genericError "fromXDR: invalid transaction envelope")
  | some txXdr => .ok
      { AssembledTransaction.mkFromOptions options with
        built := some (xdrDecode txXdr)
      , simulationResult := some
          { auth := j.simulationResultAuth.map xdrDecode
          , retval := xdrDecode j.simulationResultRetval }
      , simulationTransactionData := some (xdrDecode j.simulationTransactionData) }

/-- First-seen-order deduplication, the semantics of `[...new Set(xs)]` on an
array of strings (a JS `Set` iterates in insertion order). -/
def dedupFirstSeen (seen : List String) : List String → List String
  | [] => []
  | x :: xs =>
      if x ∈ seen then dedupFirstSeen seen xs
      else x :: dedupFirstSeen (x :: seen) xs

/-- `AssembledTransaction.needsNonInvokerSigningBy({includeAlreadySigned})`:
throws when `built` is missing; reads the single invoke-host-function
operation's auth list (an empty operations array makes the JS code fail on
`operations[0].auth`, modelled as a generic error); keeps the entries with
address credentials whose signature slot is still `scvVoid` (or all of them
when `includeAlreadySigned`); StrKey-encodes each entry's account key (the
source `filter` followed by `map`, fused into `filterMap`); and deduplicates
preserving first-seen order. -/
def AssembledTransaction.needsNonInvokerSigningBy {T : Type}
    (tx : AssembledTransaction T) (includeAlreadySigned : Bool) :
    Except SdkError (List String) :=
  match tx.built with
  | none => .error (SdkError.genericError "Transaction has not yet been simulated")
  | some b =>
    match b.operations with
    | [] => .error (SdkError.genericError "Unexpected Transaction type; no operations")
    | op :: _ =>
      .ok (dedupFirstSeen [] ((op.auth.getD []).filterMap fun entry =>
        match entry.credentials with
        | .sourceAccount => none
        | .address addr signature _ =>
            if includeAlreadySigned || signature.switchName == "scvVoid"
            then some addr else none))

/-- The `isReadCall` getter: true iff the simulation result's auth list is
empty and the transaction data's footprint has zero read-write entries;
reading `simulationData` can throw. -/
def AssembledTransaction.isReadCall {T : Type} (tx : AssembledTransaction T) :
    Except SdkError Bool :=
  match simulationDataCore tx with
  | .error e => .error e
  | .ok sd => .ok (sd.result.auth.length == 0
      && sd.transactionData.resources.footprint.readWrite.length == 0)

/-- Matches a literal character pattern at the head of a character list,
returning the remainder on success. -/
def charsMatch : List Char → List Char → Option (List Char)
  | [], rest => some rest
  | _ :: _, [] => none
  | p :: ps, c :: cs => if p = c then charsMatch ps cs else none

/-- A single character-list match of the contract-error pattern at the head
of `cs`: the literal `Error(Contract, #`, then at least one digit, then `)`;
yields the digits' numeric value. -/
def contractErrorHere (cs : List Char) : Option Nat :=
  match charsMatch "Error(Contract, #".data cs with
  | none => none
  | some rest =>
    let ds := rest.takeWhile Char.isDigit
    let rest2 := rest.dropWhile Char.isDigit
    match ds, rest2 with
    | [], _ => none
    | _ :: _, c :: _ =>
        if c = ')' then some (ds.foldl (fun n d => n * 10 + (d.toNat - 48)) 0)
        else none
    | _ :: _, [] => none

/-- Leftmost match of the contract-error pattern in a character list. -/
def contractErrorScan : List Char → Option Nat
  | [] => none
  | c :: rest =>
    match contractErrorHere (c :: rest) with
    | some k => some k
    | none => contractErrorScan rest

/-- Modelled from the spec: `contractErrorPattern` lives in the missing src
utils module; the spec gives it as a regex extracting a numeric code, e.g.
`Error\(Contract, #(\d+)\)`, whose first match's first group is parsed with
`parseInt`. -/
def contractErrorCode (s : String) : Option Nat := contractErrorScan s.data

/-- Lookup in a JS object built by accumulating numeric keys: a later entry
for the same key overrides an earlier one. -/
def lookupLastNat {α : Type} (l : List (Nat × α)) (k : Nat) : Option α :=
  l.foldl (fun acc kv => if kv.1 = k then some kv.2 else acc) none

/-- `AssembledTransaction.parseError`: `undefined` without an error-type
table, a pattern match, or a registered code; otherwise the registered
`{ message }` descriptor wrapped in `Err`. -/
def AssembledTransaction.parseError {T : Type}
    (tx : AssembledTransaction T) (errorMessage : String) : Option ErrorMessage :=
  match tx.options.errorTypes with
  | none => none
  | some errorTypes =>
    match contractErrorCode errorMessage with
    | none => none
    | some i => lookupLastNat errorTypes i

/-- The value of the `result` getter: the parsed return value, or the
`Err`-tagged contract-error descriptor that `parseError` produced. -/
inductive ResultReturn (T : Type) where
  | ok (v : T)
  | err (e : ErrorMessage)

/-- The `result` getter: parses `simulationData.result.retval` with
`options.parseResultXdr`; when parsing throws a value that implements
`toString` and whose string form names a registered contract-error code, the
registered descriptor is returned `Err`-tagged instead of thrown; any other
parse error is re-raised. -/
def AssembledTransaction.result {T : Type} (tx : AssembledTransaction T) :
    Except SdkError (ResultReturn T) :=
  match simulationDataCore tx with
  | .error e => .error e
  | .ok sd =>
    match tx.options.parseResultXdr sd.result.retval with
    | .ok v => .ok (.ok v)
    | .error e =>
      if !implementsToString e then .error (.raised e)
      else
        match e.toStringVal with
        | none => .error (.raised e)
        | some s =>
          match AssembledTransaction.parseError tx s with
          | some errObj => .ok (.err errObj)
          | none => .error (.raised e)

/-- `AssembledTransaction.sign({force, signTransaction})` at wall-clock second
`now`: requires `built`; refuses a read call unless forced (the `isReadCall`
getter, and with it `simulationData`, is only consulted when `force` is
false, mirroring the short-circuit in `!force && this.isReadCall`); requires
a `signTransaction` callback (the argument, defaulting to the option-scoped
one); requires `needsNonInvokerSigningBy()` to be empty; then rebuilds
`built` as a clone preserving the fee, with timebounds cleared and a fresh
timeout of `timeoutInSeconds` applied, carrying `simulationData`'s soroban
transaction data (the getter's write-through to the cache fields is applied
to the resulting state); finally stores the callback's signed envelope. -/
def AssembledTransaction.sign {T : Type} (tx : AssembledTransaction T)
    (now : Nat) (force : Bool) (signTransactionArg : Option (Tx → Tx)) :
    Except SdkError (AssembledTransaction T) :=
  match tx.built with
  | none => .error (SdkError.genericError "Transaction has not yet been simulated")
  | some builtTx =>
    match (if force then .ok false else AssembledTransaction.isReadCall tx :
        Except SdkError Bool) with
    | .error e => .error e
    | .ok true => .error SdkError.noSignatureNeeded
    | .ok false =>
      match signTransactionArg <|> tx.options.signTransaction with
      | none => .error SdkError.noSigner
      | some signFn =>
        match AssembledTransaction.needsNonInvokerSigningBy tx false with
        | .error e => .error e
        | .ok pks =>
          if pks.length ≠ 0 then .error SdkError.needsMoreSignatures
          else
            match simulationDataCore tx with
            | .error e => .error e
            | .ok sd =>
              let timeoutInSeconds := tx.options.timeoutInSeconds.getD DEFAULT_TIMEOUT
              let newBuilt : Tx := { builtTx with
                timebounds := ⟨0, now + timeoutInSeconds⟩
              , sorobanData := some sd.transactionData }
              .ok { tx with
                built := some newBuilt
              , simulationResult := some sd.result
              , simulationTransactionData := some sd.transactionData
              , signed := some (signFn newBuilt) }

/-- JS truthiness of an array value: an array object is always truthy, so
the guard `!arr` is false whatever the array's contents. -/
def jsArrayFalsy {α : Type} (_ : List α) : Bool := false

/-- `AssembledTransaction.signAuthEntries({expiration, signAuthEntry,
publicKey})`: requires `built`; computes `needsNonInvokerSigningBy()`; the
source guard `if (!needsNonInvokerSigningBy)` tests the truthiness of the
returned array and therefore never fires (`jsArrayFalsy`); errors with
`NoSignatureNeeded` when `publicKey ?? ""` is not in the returned list and
with `NoSigner` when no `signAuthEntry` callback is available; then rewrites
in place each auth entry of `operations[0]` that has address credentials for
`publicKey`, through the external `authorizeEntry` procedure (modelled by the
`authorize` parameter, closed over the `signAuthEntry` callback), stamped
with `expiration` and the network passphrase.  An `auth` of `undefined`
leaves the operation untouched (the loop then runs over a fresh empty
array). -/
def AssembledTransaction.signAuthEntries {T : Type} (tx : AssembledTransaction T)
    (expiration : Nat)
    (authorize : SorobanAuthorizationEntry → Nat → String → SorobanAuthorizationEntry)
    (signAuthEntryArg : Option (String → String))
    (publicKeyArg : Option String) :
    Except SdkError (AssembledTransaction T) :=
  let signAuthEntry := signAuthEntryArg <|> tx.options.signAuthEntry
  let publicKey := publicKeyArg <|> tx.options.publicKey
  match tx.built with
  | none => .error (SdkError.genericError
      "Transaction has not yet been assembled or simulated")
  | some b =>
    match AssembledTransaction.needsNonInvokerSigningBy tx false with
    | .error e => .error e
    | .ok needs =>
      if jsArrayFalsy needs then .error SdkError.noUnsignedNonInvokerAuthEntries
      else if !(needs.contains (publicKey.getD "")) then
        .error SdkError.noSignatureNeeded
      else
        match signAuthEntry with
        | none => .error SdkError.noSigner
        | some _ =>
          match b.operations with
          | [] =>
              -- unreachable: needsNonInvokerSigningBy has already thrown for
              -- a transaction with no operations
              .error (SdkError.genericError "Unexpected Transaction type; no operations")
          | op :: rest =>
            match op.auth with
            | none => .ok { tx with built := some b }
            | some entries =>
              let newEntries := entries.map fun entry =>
                match entry.credentials with
                | .sourceAccount => entry
                | .address pk _ _ =>
                    if publicKey ≠ some pk then entry
                    else authorize entry expiration tx.options.networkPassphrase
              .ok { tx with
                built := some { b with operations := { op with auth := some newEntries } :: rest } }

/-- `Api.SendTransactionResponse`; `errorResult` is the decoded
`errorResultXdr`, carried opaquely. -/
structure SendTransactionResponse where
  status : String
  hash : String
  errorResult : Option String
deriving DecidableEq, Repr

/-- `Api.GetTransactionStatus`. -/
inductive GetTransactionStatus where
  | NOT_FOUND
  | SUCCESS
  | FAILED
deriving DecidableEq, Repr

/-- `Api.GetTransactionResponse`; `returnValue` is present on a successful
transaction. -/
structure GetTransactionResponse where
  status : GetTransactionStatus
  returnValue : Option ScVal
deriving DecidableEq, Repr

/-- Modelled from the spec: the loop of `withExponentialBackoff`, which lives
in the missing src utils module.  Per the spec's backoff schedule, after
attempt `i` at wall-clock offset `now` the loop sleeps
`min (2 ^ i) (deadline - now)` seconds and attempts again, stopping when the
keep-waiting predicate fails on the last response or the deadline is
reached; every attempt is recorded in order.  `fn j` is the response to the
`j`-th polling attempt. -/
def backoffLoop (fn : Nat → GetTransactionResponse)
    (keepWaitingIf : GetTransactionResponse → Bool) (deadline : Nat)
    (i now : Nat) (last : GetTransactionResponse) : List GetTransactionResponse :=
  if h : keepWaitingIf last ∧ now < deadline then
    let sleep := min (2 ^ i) (deadline - now)
    let next := fn (i + 1)
    last :: backoffLoop fn keepWaitingIf deadline (i + 1) (now + sleep) next
  else [last]
termination_by deadline - now
decreasing_by
  have h1 : 1 ≤ 2 ^ i := Nat.one_le_two_pow
  have h2 : 1 ≤ deadline - now := by omega
  have hs : 1 ≤ min (2 ^ i) (deadline - now) := le_min h1 h2
  omega

/-- Modelled from the spec: `withExponentialBackoff(fn, keepWaitingIf,
timeoutInSeconds)` — attempt 0 immediately, deadline at `timeoutInSeconds`
from the start, then the schedule of `backoffLoop`. -/
def withExponentialBackoff (fn : Nat → GetTransactionResponse)
    (keepWaitingIf : GetTransactionResponse → Bool) (timeoutInSeconds : Nat) :
    List GetTransactionResponse :=
  backoffLoop fn keepWaitingIf timeoutInSeconds 0 0 (fn 0)

/-- The `SentTransaction<T>` fields: the originating assembled transaction
(reached for its `options` and `built`), the re-signed envelope, the first
network acknowledgement, the ordered list of poll attempts and its last
element. -/
structure SentTransaction (T : Type) where
  assembled : AssembledTransaction T
  signed : Option Tx := none
  sendTransactionResponse : Option SendTransactionResponse := none
  getTransactionResponseAll : Option (List GetTransactionResponse) := none
  getTransactionResponse : Option GetTransactionResponse := none

/-- `SentTransaction.send(updateTimeout)` at wall-clock second `now`, with
the two RPC endpoints as oracles (`getTransactionRpc hash j` is the response
to the `j`-th poll for `hash`).  When `updateTimeout` is set, `built` is
re-cloned preserving its fee with cleared timebounds, a fresh timeout of
`timeoutInSeconds`, and the soroban data rebuilt from `simulationData` (the
getter's write-through is applied); the envelope is then signed via the
`signTransaction` callback (non-null, enforced by the constructor) and
submitted.  A non-`PENDING` submission status fails with `SendFailed`; the
poll loop records every attempt; if the last recorded status is still
`NOT_FOUND` the call fails with `TransactionStillPending`.  The returned
pair is the object state at return or throw time together with the thrown
error, if any. -/
def SentTransaction.send {T : Type} (st : SentTransaction T)
    (signTransaction : Tx → Tx) (updateTimeout : Bool) (now : Nat)
    (sendTransactionRpc : Tx → SendTransactionResponse)
    (getTransactionRpc : String → Nat → GetTransactionResponse) :
    SentTransaction T × Option SdkError :=
  let timeoutInSeconds := st.assembled.options.timeoutInSeconds.getD DEFAULT_TIMEOUT
  match st.assembled.built with
  | none => (st, some (SdkError.genericError "built is not defined"))
  | some b =>
    let refreshed : Except SdkError (AssembledTransaction T) :=
      if updateTimeout then
        match simulationDataCore st.assembled with
        | .error e => .error e
        | .ok sd => .ok { st.assembled with
            built := some { b with
              timebounds := ⟨0, now + timeoutInSeconds⟩
            , sorobanData := some sd.transactionData }
          , simulationResult := some sd.result
          , simulationTransactionData := some sd.transactionData }
      else .ok st.assembled
    match refreshed with
    | .error e => (st, some e)
    | .ok asm =>
      match asm.built with
      | none => (st, some (SdkError.genericError "built is not defined"))
      | some builtTx =>
        let signedTx := signTransaction builtTx
        let st1 := { st with assembled := asm, signed := some signedTx }
        let resp := sendTransactionRpc signedTx
        let st2 := { st1 with sendTransactionResponse := some resp }
        if resp.status ≠ "PENDING" then (st2, some SdkError.sendFailed)
        else
          let all := withExponentialBackoff (getTransactionRpc resp.hash)
            (fun r => r.status == GetTransactionStatus.NOT_FOUND) timeoutInSeconds
          let st3 := { st2 with
            getTransactionResponseAll := some all
          , getTransactionResponse := all.getLast? }
          match all.getLast? with
          | some lastResp =>
              if lastResp.status == GetTransactionStatus.NOT_FOUND
              then (st3, some SdkError.transactionStillPending)
              else (st3, none)
          | none => (st3, none)

/-- `SentTransaction.init(signTransaction, assembled, updateTimeout)`: the
constructor throws when no `signTransaction` callback is provided, then
`send` runs immediately. -/
def SentTransaction.init {T : Type} (signTransaction : Option (Tx → Tx))
    (assembled : AssembledTransaction T) (updateTimeout : Bool) (now : Nat)
    (sendTransactionRpc : Tx → SendTransactionResponse)
    (getTransactionRpc : String → Nat → GetTransactionResponse) :
    Except SdkError (SentTransaction T × Option SdkError) :=
  match signTransaction with
  | none => .error (SdkError.genericError
      "You must provide a signTransaction function to send a transaction")
  | some f => .ok (SentTransaction.send
      { assembled := assembled } f updateTimeout now sendTransactionRpc getTransactionRpc)

/-- A function descriptor of the contract interface: name and declared
inputs. -/
structure FuncSpec where
  name : String
  inputs : List String
deriving DecidableEq, Repr

/-- An error-case descriptor of the contract interface: numeric code and
documentation string. -/
structure SpecErrorCase where
  value : Nat
  doc : String
deriving DecidableEq, Repr

/-- The `ContractSpec` collaborator: ordered function descriptors, error
cases, and the two (external) marshalling operations. -/
structure ContractSpec (T : Type) where
  funcs : List FuncSpec
  errorCases : List SpecErrorCase
  funcArgsToScVals : String → List (String × ScVal) → List ScVal
  funcResToNative : String → ScVal → Except JsError T

/-- `ContractSpec.getFunc(name)`: the first function descriptor with the
given name (in JS a missing entry makes `getFunc` throw; the verified call
sites only look up names drawn from `funcs`). -/
def ContractSpec.getFunc {T : Type} (spec : ContractSpec T) (name : String) :
    Option FuncSpec :=
  spec.funcs.find? (fun f => f.name == name)

/-- The `spec.errorCases().reduce(...)` fold of both ContractClient
constructors: an integer-keyed object mapping each error code to
`{ message: doc }`; a later case with the same code overrides an earlier one
(`lookupLastNat` semantics). -/
def errorTypesFromSpec {T : Type} (spec : ContractSpec T) :
    List (Nat × ErrorMessage) :=
  spec.errorCases.map fun c => (c.value, ⟨c.doc⟩)

/-- `ContractClientOptions`: per-client configuration. -/
structure ClientOptions where
  rpcUrl : String
  networkPassphrase : String
  contractId : String
  allowHttp : Option Bool := none
  publicKey : Option String := none
  signTransaction : Option (Tx → Tx) := none
  signAuthEntry : Option (String → String) := none
  errorTypes : Option (List (Nat × ErrorMessage)) := none

/-- `MethodOptions`: per-invocation overrides. -/
structure MethodOptions where
  fee : Option Nat := none
  timeoutInSeconds : Option Nat := none
  simulate : Option Bool := none

/-- The options record the `assembleTransaction` closure of the
ContractClient in src/contract (the class appended to sent_transaction.ts)
passes to `AssembledTransaction.build`: the object literal
`method, args && funcArgsToScVals, ...options, ...methodOptions` with
`errorTypes` (from `spec.errorCases()`) and
`parseResultXdr = v => spec.funcResToNative(method, v)` written last, at the
declared option types. -/
def ContractClient.assembleTransactionOptions {T : Type} (spec : ContractSpec T)
    (options : ClientOptions) (method : String)
    (args : Option (List (String × ScVal))) (methodOptions : MethodOptions) :
    AssembledTransactionOptions T :=
  { method := method
  , args := args.map (spec.funcArgsToScVals method)
  , rpcUrl := options.rpcUrl
  , networkPassphrase := options.networkPassphrase
  , contractId := options.contractId
  , allowHttp := options.allowHttp
  , publicKey := options.publicKey
  , signTransaction := options.signTransaction
  , signAuthEntry := options.signAuthEntry
  , fee := methodOptions.fee
  , timeoutInSeconds := methodOptions.timeoutInSeconds
  , simulate := methodOptions.simulate
  , errorTypes := some (errorTypesFromSpec spec)
  , parseResultXdr := spec.funcResToNative method }

/-- The options record the legacy ContractClient constructor
(contract_client/client.ts) passes to `AssembledTransaction.build`: same
declared-type content, but `args` is always marshalled (no `args &&` guard)
and the runtime spread order is `...options, ...this.options` (per-call
first, client options second). -/
def legacyAssembleTransactionOptions {T : Type} (spec : ContractSpec T)
    (clientOptions : ClientOptions) (method : String)
    (args : List (String × ScVal)) (methodOptions : MethodOptions) :
    AssembledTransactionOptions T :=
  { method := method
  , args := some (spec.funcArgsToScVals method args)
  , rpcUrl := clientOptions.rpcUrl
  , networkPassphrase := clientOptions.networkPassphrase
  , contractId := clientOptions.contractId
  , allowHttp := clientOptions.allowHttp
  , publicKey := clientOptions.publicKey
  , signTransaction := clientOptions.signTransaction
  , signAuthEntry := clientOptions.signAuthEntry
  , fee := methodOptions.fee
  , timeoutInSeconds := methodOptions.timeoutInSeconds
  , simulate := methodOptions.simulate
  , errorTypes := some (errorTypesFromSpec spec)
  , parseResultXdr := spec.funcResToNative method }

/-- The shape of a callable the client attaches for a contract method:
`(methodOptions?)` for a zero-input function, `(args, methodOptions?)`
otherwise. -/
inductive MethodShape where
  | optionsOnly
  | argsAndOptions
deriving DecidableEq, Repr

/-- The method attachment loop of the ContractClient constructor in
src/contract: for each `xdrFn` of `spec.funcs()`, assign
`this[method] = spec.getFunc(method).inputs().length === 0 ?
(opts?) => assembleTransaction(undefined, opts) : assembleTransaction`.
The `none` branch of `getFunc` is unreachable (the name is drawn from
`funcs`). -/
def ContractClient.methodBindings {T : Type} (spec : ContractSpec T) :
    List (String × MethodShape) :=
  spec.funcs.map fun xdrFn =>
    let method := xdrFn.name
    ( method
    , match spec.getFunc method with
      | some f =>
          if f.inputs.length == 0 then MethodShape.optionsOnly
          else MethodShape.argsAndOptions
      | none => MethodShape.argsAndOptions )

/-- The method attachment loop of the legacy ContractClient constructor
(contract_client/client.ts): every method is assigned the two-parameter
`(args, options)` callable, regardless of its declared input count. -/
def legacyMethodBindings {T : Type} (spec : ContractSpec T) :
    List (String × MethodShape) :=
  spec.funcs.map fun m => (m.name, MethodShape.argsAndOptions)

/-- JS property lookup on an object built by successive assignments or
spreads, given as an ordered list of key-value bindings: the last binding
for a key wins. -/
def jsGet {α : Type} (o : List (String × α)) (k : String) : Option α :=
  o.foldl (fun acc kv => if kv.1 = k then some kv.2 else acc) none

/-- The runtime semantics of a two-object spread `[...a, ...b]` at the
property level: the bindings of `a` followed by those of `b`. -/
def spreadTwo {α : Type} (a b : List (String × α)) : List (String × α) := a ++ b

/-- The runtime property bindings contributed by the
`...options, ...methodOptions` spread pair in the src/contract
ContractClient's `assembleTransaction`: client options first, per-call
method options second. -/
def clientCallSpreadProps {α : Type} (clientProps methodProps : List (String × α)) :
    List (String × α) :=
  spreadTwo clientProps methodProps

/-- The runtime property bindings contributed by the
`...options, ...this.options` spread pair in the legacy ContractClient
(contract_client/client.ts): per-call options first, client options
second. -/
def legacyCallSpreadProps {α : Type} (methodProps clientProps : List (String × α)) :
    List (String × α) :=
  spreadTwo methodProps clientProps

/-- The claim-side description of the co-signer extraction: the account key
of each address-credentialed auth entry whose signature slot is still the
void marker, source-credentialed entries skipped, in entry order. -/
def authAddressVoidKeys (entries : List SorobanAuthorizationEntry) : List String :=
  entries.filterMap fun entry =>
    match entry.credentials with
    | .sourceAccount => none
    | .address addr signature _ =>
        if signature.switchName == "scvVoid" then some addr else none

/- Concrete sample data used by the witness and counterexample theorems. -/

/-- Sample soroban transaction data with an empty footprint. -/
def sampleTd : SorobanTransactionData := ⟨⟨⟨[], []⟩⟩, 100⟩

/-- Sample soroban transaction data with one read-write footprint entry. -/
def sampleTdRw : SorobanTransactionData := ⟨⟨⟨[], [⟨"k"⟩]⟩⟩, 100⟩

/-- Sample built transaction: a single invoke-host-function operation with
an empty auth list. -/
def sampleTx0 : Tx :=
  { source := "GS", seqNum := 1, fee := 100, timebounds := ⟨0, 300⟩
  , sorobanData := none, operations := [⟨some []⟩] }

/-- Sample assembled-transaction options (result parser returns the raw
value). -/
def sampleOptions : AssembledTransactionOptions ScVal :=
  { method := "hello"
  , args := some [ScVal.scvSym "world"]
  , rpcUrl := "http://localhost:8000"
  , networkPassphrase := "Standalone Network ; February 2017"
  , contractId := "CA"
  , allowHttp := some true
  , publicKey := some "GS"
  , signTransaction := some id
  , signAuthEntry := some id
  , fee := none
  , timeoutInSeconds := none
  , simulate := some true
  , errorTypes := some [(3, ⟨"insufficient"⟩)]
  , parseResultXdr := fun v => .ok v }

/-- C10 sample: built with `simulate: false`; never simulated, no cache. -/
def txC10 : AssembledTransaction ScVal := { options := sampleOptions }

/-- C1 sample: a simulated transaction with cached simulation extracts. -/
def txC1 : AssembledTransaction ScVal :=
  { options := sampleOptions
  , built := some sampleTx0
  , simulationResult := some ⟨[⟨.address "GA" ScVal.scvVoid 0⟩], ScVal.scvU32 1⟩
  , simulationTransactionData := some sampleTd }

/-- C2 sample auth list: a source-credentialed entry, then void-signature
address entries for two distinct accounts. -/
def entriesC2 : List SorobanAuthorizationEntry :=
  [ ⟨.sourceAccount⟩
  , ⟨.address "GA" ScVal.scvVoid 0⟩
  , ⟨.address "GB" ScVal.scvVoid 0⟩ ]

/-- C2 sample: simulated transaction whose operation carries `entriesC2`. -/
def txC2 : AssembledTransaction ScVal :=
  { options := sampleOptions
  , built := some { sampleTx0 with operations := [⟨some entriesC2⟩] }
  , simulationResult := some ⟨entriesC2, ScVal.scvU32 1⟩
  , simulationTransactionData := some sampleTd }

/-- C3 sample: a simulated read call (no auth entries, empty read-write
footprint). -/
def txC3 : AssembledTransaction ScVal :=
  { options := sampleOptions
  , built := some sampleTx0
  , simulationResult := some ⟨[], ScVal.scvU32 7⟩
  , simulationTransactionData := some sampleTd }

/-- Sample `authorizeEntry` stand-in: returns the entry unchanged. -/
def authIdFn : SorobanAuthorizationEntry → Nat → String → SorobanAuthorizationEntry :=
  fun e _ _ => e

/-- Sample `signAuthEntry` callback. -/
def sampleAuthSigner : String → String := fun s => s

/-- C4 failing input: built transaction with zero candidate auth entries
(the operation's auth list is empty). -/
def txC4zero : AssembledTransaction ScVal :=
  { options := sampleOptions
  , built := some sampleTx0
  , simulationResult := some ⟨[], ScVal.scvU32 1⟩
  , simulationTransactionData := some sampleTd }

/-- C5 sample: a simulated transaction ready to sign (forced). -/
def txC5 : AssembledTransaction ScVal :=
  { options := sampleOptions
  , built := some sampleTx0
  , simulationResult := some ⟨[], ScVal.scvU32 7⟩
  , simulationTransactionData := some sampleTd }

/-- The envelope C5's `sign` produces at wall-clock second 5: fee and
operations preserved, timebounds refreshed to the default 30-second window,
simulation soroban data attached. -/
def nbC5 : Tx := { sampleTx0 with timebounds := ⟨0, 35⟩, sorobanData := some sampleTd }

/-- The post-`sign` state of `txC5`. -/
def txC5signed : AssembledTransaction ScVal :=
  { txC5 with
    built := some nbC5
  , simulationResult := some ⟨[], ScVal.scvU32 7⟩
  , simulationTransactionData := some sampleTd
  , signed := some nbC5 }

/-- C6 sample options: the result parser throws a value whose string form
names contract error 3, which the error-type table registers. -/
def optionsC6 : AssembledTransactionOptions ScVal :=
  { sampleOptions with
    parseResultXdr := fun _ => .error ⟨some "Error(Contract, #3)"⟩ }

/-- C6 sample: simulated transaction whose result parsing throws a
registered contract error. -/
def txC6 : AssembledTransaction ScVal :=
  { options := optionsC6
  , built := some sampleTx0
  , simulationResult := some ⟨[], ScVal.scvU32 1⟩
  , simulationTransactionData := some sampleTd }

/-- C7 sample options: one-second poll budget. -/
def optionsC7 : AssembledTransactionOptions ScVal :=
  { sampleOptions with timeoutInSeconds := some 1 }

/-- C7 sample assembled transaction. -/
def txC7 : AssembledTransaction ScVal :=
  { options := optionsC7
  , built := some sampleTx0
  , simulationResult := some ⟨[], ScVal.scvU32 1⟩
  , simulationTransactionData := some sampleTd }

/-- C7 sample sent-transaction state before `send`. -/
def stC7 : SentTransaction ScVal := { assembled := txC7 }

/-- C7 sample RPC: submission always acknowledged `PENDING`. -/
def sendRpcC7 : Tx → SendTransactionResponse :=
  fun _ => { status := "PENDING", hash := "abc", errorResult := none }

/-- C7 sample RPC: every poll returns `NOT_FOUND`. -/
def getRpcC7 : String → Nat → GetTransactionResponse :=
  fun _ _ => { status := GetTransactionStatus.NOT_FOUND, returnValue := none }

/-- C8 sample contract spec: a zero-input function and a one-input
function. -/
def specC8 : ContractSpec ScVal :=
  { funcs := [⟨"inc", []⟩, ⟨"hello", ["to"]⟩]
  , errorCases := []
  , funcArgsToScVals := fun _ _ => []
  , funcResToNative := fun _ v => .ok v }

/-- C9 sample contract spec with one error case. -/
def specC9 : ContractSpec ScVal :=
  { funcs := [⟨"swap", ["a", "b"]⟩]
  , errorCases := [⟨1, "not initialized"⟩]
  , funcArgsToScVals := fun _ _ => []
  , funcResToNative := fun _ v => .ok v }

/- Helper lemmas (shared; not claim theorems). -/

/-- Deduplication is the identity on a duplicate-free list disjoint from the
seen set. -/
theorem dedupFirstSeen_eq_self (l : List String) : ∀ seen : List String,
    l.Nodup → (∀ x ∈ l, x ∉ seen) → dedupFirstSeen seen l = l := by
  induction l with
  | nil => intro seen _ _; rfl
  | cons x xs ih =>
    intro seen hnd hdisj
    have hx : x ∉ seen := hdisj x (List.mem_cons_self x xs)
    rw [dedupFirstSeen, if_neg hx]
    congr 1
    apply ih
    · exact (List.nodup_cons.mp hnd).2
    · intro y hy
      rcases List.nodup_cons.mp hnd with ⟨hxnotin, _⟩
      intro hmem
      rcases List.mem_cons.mp hmem with h1 | h2
      · exact hxnotin (h1 ▸ hy)
      · exact hdisj y (List.mem_cons_of_mem x hy) h2

/-- Characterisation of `jsGet`'s left fold with an arbitrary accumulator:
the fold yields the last binding for `k` when one exists, the accumulator
otherwise. -/
theorem jsGet_foldl {α : Type} (k : String) (l : List (String × α)) :
    ∀ init : Option α,
      l.foldl (fun acc kv => if kv.1 = k then some kv.2 else acc) init
        = (jsGet l k).or init := by
  induction l with
  | nil => intro init; simp [jsGet, Option.or]
  | cons kv l ih =>
    intro init
    have h2 : jsGet (kv :: l) k
        = (jsGet l k).or (if kv.1 = k then some kv.2 else none) := by
      rw [jsGet, List.foldl_cons, ih]
    rw [List.foldl_cons, ih, h2]
    cases hj : jsGet l k with
    | some v => simp [Option.or]
    | none => by_cases hk : kv.1 = k <;> simp [hk, Option.or]

/-- `jsGet` on an empty object. -/
theorem jsGet_nil {α : Type} (k : String) : jsGet ([] : List (String × α)) k = none := rfl

/-- `jsGet` after a two-object spread: a binding in the second object wins. -/
theorem jsGet_append {α : Type} (a b : List (String × α)) (k : String) :
    jsGet (a ++ b) k = (jsGet b k).or (jsGet a k) := by
  rw [jsGet, List.foldl_append, jsGet_foldl]
  rfl

/-- `jsGet` on a cons cell. -/
theorem jsGet_cons {α : Type} (kv : (String × α)) (l : List (String × α)) (k : String) :
    jsGet (kv :: l) k = (jsGet l k).or (if kv.1 = k then some kv.2 else none) := by
  rw [jsGet, List.foldl_cons, jsGet_foldl]

/-- Absent keys look up to `undefined`. -/
theorem jsGet_eq_none_of_not_mem {α : Type} (l : List (String × α)) (k : String)
    (h : ∀ kv ∈ l, kv.1 ≠ k) : jsGet l k = none := by
  induction l with
  | nil => rfl
  | cons kv l ih =>
    rw [jsGet_cons, ih (fun kv2 h2 => h kv2 (List.mem_cons_of_mem kv h2)),
      if_neg (h kv (List.mem_cons_self kv l))]
    rfl

/-- `needsNonInvokerSigningBy` only throws plain generic errors (a missing
`built` or a malformed operations list), never one of the named error
classes. -/
theorem needsNonInvokerSigningBy_error_generic {T : Type}
    (tx : AssembledTransaction T) (inc : Bool) (e : SdkError)
    (h : tx.needsNonInvokerSigningBy inc = .error e) :
    ∃ msg, e = SdkError.genericError msg := by
  unfold AssembledTransaction.needsNonInvokerSigningBy at h
  split at h
  · exact ⟨_, by injection h with h2; exact h2.symm⟩
  · split at h
    · exact ⟨_, by injection h with h2; exact h2.symm⟩
    · cases h

/-- Every recorded response of the backoff loop is either the seeded last
response or the reply to some later polling attempt. -/
theorem backoffLoop_mem (fn : Nat → GetTransactionResponse)
    (keep : GetTransactionResponse → Bool) (deadline : Nat) :
    ∀ gas i now last, deadline - now ≤ gas →
      ∀ x ∈ backoffLoop fn keep deadline i now last, x = last ∨ ∃ j, x = fn j := by
  intro gas
  induction gas with
  | zero =>
    intro i now last hgas x hx
    rw [backoffLoop] at hx
    split at hx
    · next hcond => omega
    · rcases List.mem_singleton.mp hx with h; exact Or.inl h
  | succ g ih =>
    intro i now last hgas x hx
    rw [backoffLoop] at hx
    split at hx
    · next hcond =>
      rcases List.mem_cons.mp hx with h | h
      · exact Or.inl h
      · have hrec := ih (i + 1) (now + min (2 ^ i) (deadline - now)) (fn (i + 1))
          (by
            have h1 : 1 ≤ 2 ^ i := Nat.one_le_two_pow
            have h2 : now < deadline := hcond.2
            have hs : 1 ≤ min (2 ^ i) (deadline - now) := le_min h1 (by omega)
            omega)
          x h
        rcases hrec with h2 | h2
        · exact Or.inr ⟨i + 1, h2⟩
        · exact Or.inr h2
    · rcases List.mem_singleton.mp hx with h; exact Or.inl h

/-- The backoff loop records at least one attempt. -/
theorem backoffLoop_ne_nil (fn : Nat → GetTransactionResponse)
    (keep : GetTransactionResponse → Bool) (deadline i now : Nat)
    (last : GetTransactionResponse) :
    backoffLoop fn keep deadline i now last ≠ [] := by
  rw [backoffLoop]
  split <;> simp

/-- When every poll reply carries status `s` and the seed reply does too, the
last recorded response of `withExponentialBackoff` exists and carries
status `s`. -/
theorem withExponentialBackoff_last_status
    (fn : Nat → GetTransactionResponse) (keep : GetTransactionResponse → Bool)
    (t : Nat) (s : GetTransactionStatus)
    (hfn : ∀ j, (fn j).status = s) :
    ∃ lastResp, (withExponentialBackoff fn keep t).getLast? = some lastResp
      ∧ lastResp.status = s
      ∧ 1 ≤ (withExponentialBackoff fn keep t).length := by
  have hne := backoffLoop_ne_nil fn keep t 0 0 (fn 0)
  have hub : withExponentialBackoff fn keep t = backoffLoop fn keep t 0 0 (fn 0) := rfl
  refine ⟨(backoffLoop fn keep t 0 0 (fn 0)).getLast hne, ?_, ?_, ?_⟩
  · rw [hub]; exact List.getLast?_eq_getLast _ hne
  · have hmem : (backoffLoop fn keep t 0 0 (fn 0)).getLast hne
        ∈ backoffLoop fn keep t 0 0 (fn 0) := List.getLast_mem hne
    rcases backoffLoop_mem fn keep t (t - 0) 0 0 (fn 0) (le_refl _) _ hmem with h | ⟨j, hj⟩
    · rw [h]; exact hfn 0
    · rw [hj]; exact hfn j
  · rw [hub]
    cases hc : backoffLoop fn keep t 0 0 (fn 0) with
    | nil => exact absurd hc hne
    | cons a l => simp

/- Claim theorems. -/

/-- C10: on an AssembledTransaction on which no simulation has completed and
whose cached `simulationResult` and `simulationTransactionData` are both
absent (for example one built with `simulate: false`), `toJSON()` throws
`NotYetSimulated` instead of producing a JSON string. -/
theorem toJSON_throws_not_yet_simulated {T : Type} (tx : AssembledTransaction T)
    (hsim : tx.simulation = none) (hres : tx.simulationResult = none)
    (htd : tx.simulationTransactionData = none) :
    tx.toJSON = .error SdkError.notYetSimulated := by
  unfold AssembledTransaction.toJSON simulationDataCore
  rw [hsim, hres, htd]

/-- C10 witness: a freshly built, never simulated transaction. -/
theorem toJSON_throws_not_yet_simulated_witness :
    AssembledTransaction.toJSON txC10 = .error SdkError.notYetSimulated :=
  toJSON_throws_not_yet_simulated txC10 rfl rfl rfl

/-- C1: for every simulated AssembledTransaction (built envelope present,
`simulationData` defined), serialising with `toJSON` and deserialising with
`fromJSON` yields an AssembledTransaction whose built envelope, simulation
retval, auth entries, and soroban transaction data all serialise to the same
byte sequences as the original's. -/
theorem fromJSON_toJSON_roundtrip {T : Type} (tx : AssembledTransaction T)
    (b : Tx) (sd : SimulationData) (options2 : AssembledTransactionOptions T)
    (hb : tx.built = some b) (hsd : simulationDataCore tx = .ok sd) :
    ∃ j tx2, tx.toJSON = .ok j
      ∧ AssembledTransaction.fromJSON options2 j = .ok tx2
      ∧ tx2.built.map xdrEncode = tx.built.map xdrEncode
      ∧ ∃ sd2, simulationDataCore tx2 = .ok sd2
          ∧ xdrEncode sd2.result.retval = xdrEncode sd.result.retval
          ∧ sd2.result.auth.map xdrEncode = sd.result.auth.map xdrEncode
          ∧ xdrEncode sd2.transactionData = xdrEncode sd.transactionData := by
  refine ⟨
    { method := tx.options.method
    , tx := some b
    , simulationResultAuth := sd.result.auth.map xdrEncode
    , simulationResultRetval := xdrEncode sd.result.retval
    , simulationTransactionData := xdrEncode sd.transactionData },
    { AssembledTransaction.mkFromOptions options2 with
      built := some b
    , simulationResult := some ⟨(sd.result.auth.map xdrEncode).map xdrDecode,
        xdrDecode (xdrEncode sd.result.retval)⟩
    , simulationTransactionData := some (xdrDecode (xdrEncode sd.transactionData)) },
    ?_, rfl, ?_, ?_⟩
  · unfold AssembledTransaction.toJSON
    rw [hsd, hb]
    rfl
  · rw [hb]
  · refine ⟨_, rfl, rfl, ?_, rfl⟩
    simp [xdrEncode, xdrDecode]

/-- C1 witness: round-trip of a concrete simulated transaction carrying one
auth entry. -/
theorem fromJSON_toJSON_roundtrip_witness :
    ∃ j tx2, AssembledTransaction.toJSON txC1 = .ok j
      ∧ AssembledTransaction.fromJSON sampleOptions j = .ok tx2
      ∧ tx2.built.map xdrEncode = txC1.built.map xdrEncode
      ∧ ∃ sd2, simulationDataCore tx2 = .ok sd2
          ∧ xdrEncode sd2.result.retval
              = xdrEncode (ScVal.scvU32 1)
          ∧ sd2.result.auth.map xdrEncode
              = [SorobanAuthorizationEntry.mk (.address "GA" ScVal.scvVoid 0)].map xdrEncode
          ∧ xdrEncode sd2.transactionData = xdrEncode sampleTd :=
  fromJSON_toJSON_roundtrip txC1 sampleTx0
    ⟨⟨[⟨.address "GA" ScVal.scvVoid 0⟩], ScVal.scvU32 1⟩, sampleTd⟩
    sampleOptions rfl rfl

/-- C2: for a simulated AssembledTransaction whose single
invoke-host-function operation carries address-credentialed auth entries
with void signature slots for distinct accounts, `needsNonInvokerSigningBy`
returns exactly those accounts, in order of first occurrence, with no
duplicates, skipping source-credentialed entries; and it throws when `built`
is absent. -/
theorem needsNonInvokerSigningBy_co_signers {T : Type}
    (tx : AssembledTransaction T) (b : Tx) (op : InvokeHostFunctionOp)
    (entries : List SorobanAuthorizationEntry)
    (hb : tx.built = some b) (hops : b.operations = [op])
    (hauth : op.auth = some entries)
    (hnd : (authAddressVoidKeys entries).Nodup) :
    tx.needsNonInvokerSigningBy false = .ok (authAddressVoidKeys entries)
  ∧ ∀ tx2 : AssembledTransaction T, tx2.built = none →
      ∃ msg, tx2.needsNonInvokerSigningBy false
        = .error (SdkError.genericError msg) := by
  constructor
  · simp only [AssembledTransaction.needsNonInvokerSigningBy, hb, hops, hauth,
      Option.getD, Bool.false_or]
    show Except.ok (dedupFirstSeen [] (authAddressVoidKeys entries)) = _
    rw [dedupFirstSeen_eq_self _ [] hnd
      (by intro x _; exact List.not_mem_nil x)]
  · intro tx2 h2
    exact ⟨"Transaction has not yet been simulated",
      by simp only [AssembledTransaction.needsNonInvokerSigningBy, h2]⟩

/-- C2 witness: a source entry followed by void-signature address entries
for accounts GA and GB yields exactly that co-signer list, in order. -/
theorem needsNonInvokerSigningBy_co_signers_witness :
    AssembledTransaction.needsNonInvokerSigningBy txC2 false = .ok ["GA", "GB"] :=
  (needsNonInvokerSigningBy_co_signers txC2 _ _ entriesC2 rfl rfl rfl (by decide)).1

/-- C3: for every simulated AssembledTransaction, `isReadCall` is true iff
the simulation result's auth list is empty and the transaction data's
footprint has zero read-write entries; on such a read call, `sign()` without
`force` fails with `NoSignatureNeeded`, while `result` returns the parsed
value without requiring a signer. -/
theorem read_call_properties {T : Type} (tx : AssembledTransaction T) (b : Tx)
    (sd : SimulationData) (hb : tx.built = some b)
    (hsd : simulationDataCore tx = .ok sd) :
    (tx.isReadCall = .ok true ↔
       (sd.result.auth = [] ∧ sd.transactionData.resources.footprint.readWrite = []))
  ∧ (tx.isReadCall = .ok true →
       ∀ (now : Nat) (signArg : Option (Tx → Tx)),
         tx.sign now false signArg = .error SdkError.noSignatureNeeded)
  ∧ (∀ v, tx.options.parseResultXdr sd.result.retval = .ok v →
       tx.result = .ok (ResultReturn.ok v)) := by
  refine ⟨?_, ?_, ?_⟩
  · simp only [AssembledTransaction.isReadCall, hsd]
    simp [List.length_eq_zero]
  · intro hrc now signArg
    simp only [AssembledTransaction.sign, hb, hrc]
    rfl
  · intro v hv
    simp only [AssembledTransaction.result, hsd, hv]

/-- C3 witness: a concrete simulated read call (no auth, empty read-write
footprint): `isReadCall` holds, unforced `sign` fails with
`NoSignatureNeeded`, and `result` yields the parsed retval. -/
theorem read_call_properties_witness :
    AssembledTransaction.isReadCall txC3 = .ok true
  ∧ AssembledTransaction.sign txC3 0 false none = .error SdkError.noSignatureNeeded
  ∧ AssembledTransaction.result txC3 = .ok (ResultReturn.ok (ScVal.scvU32 7)) := by
  have H := read_call_properties txC3 sampleTx0 ⟨⟨[], ScVal.scvU32 7⟩, sampleTd⟩ rfl rfl
  exact ⟨H.1.mpr ⟨rfl, rfl⟩, H.2.1 (H.1.mpr ⟨rfl, rfl⟩) 0 none, H.2.2 _ rfl⟩

/-- C5: every successful `sign()` signs a clone of `built` that preserves
the fee (and source, sequence number and operations), carries the
post-simulation soroban transaction data, and has its timebounds cleared and
replaced by a fresh `timeoutInSeconds` window anchored at the signing
timestamp `now` rather than the build timestamp. -/
theorem sign_refreshes_envelope {T : Type} (tx tx' : AssembledTransaction T)
    (now : Nat) (force : Bool) (signArg : Option (Tx → Tx))
    (h : tx.sign now force signArg = .ok tx') :
    ∃ b sd signFn nb,
      tx.built = some b
      ∧ simulationDataCore tx = .ok sd
      ∧ (signArg <|> tx.options.signTransaction) = some signFn
      ∧ nb.fee = b.fee
      ∧ nb.operations = b.operations
      ∧ nb.source = b.source
      ∧ nb.seqNum = b.seqNum
      ∧ nb.timebounds = ⟨0, now + tx.options.timeoutInSeconds.getD DEFAULT_TIMEOUT⟩
      ∧ nb.sorobanData = some sd.transactionData
      ∧ tx'.built = some nb
      ∧ tx'.signed = some (signFn nb) := by
  unfold AssembledTransaction.sign at h
  split at h
  · cases h
  next b hb =>
    split at h
    · cases h
    · cases h
    · split at h
      · cases h
      next signFn hsf =>
        split at h
        · cases h
        next pks hpks =>
          split at h
          · cases h
          · split at h
            · cases h
            next sd hsd =>
              injection h with h2
              refine ⟨b, sd, signFn,
                { b with
                  timebounds := ⟨0, now + tx.options.timeoutInSeconds.getD DEFAULT_TIMEOUT⟩
                , sorobanData := some sd.transactionData },
                hb, hsd, hsf, rfl, rfl, rfl, rfl, rfl, rfl, ?_, ?_⟩
              · rw [← h2]
              · rw [← h2]

/-- C5 witness: a concrete forced `sign` at wall-clock second 5 produces the
refreshed envelope with a 0 .. 35 validity window. -/
theorem sign_refreshes_envelope_witness :
    ∃ b sd signFn nb,
      txC5.built = some b
      ∧ simulationDataCore txC5 = .ok sd
      ∧ (none <|> txC5.options.signTransaction) = some signFn
      ∧ nb.fee = b.fee
      ∧ nb.operations = b.operations
      ∧ nb.source = b.source
      ∧ nb.seqNum = b.seqNum
      ∧ nb.timebounds = ⟨0, 5 + txC5.options.timeoutInSeconds.getD DEFAULT_TIMEOUT⟩
      ∧ nb.sorobanData = some sd.transactionData
      ∧ txC5signed.built = some nb
      ∧ txC5signed.signed = some (signFn nb) :=
  sign_refreshes_envelope txC5 txC5signed 5 true none rfl

/-- C6: when result parsing throws an error whose string form names a
contract-error code registered in `options.errorTypes`, `result` returns the
registered descriptor `Err`-tagged and does not throw; any other parsing
error is re-raised. -/
theorem result_contract_error_mapping {T : Type} (tx : AssembledTransaction T)
    (sd : SimulationData) (e : JsError)
    (hsd : simulationDataCore tx = .ok sd)
    (hparse : tx.options.parseResultXdr sd.result.retval = .error e) :
    (∀ s k ets m, e.toStringVal = some s →
        tx.options.errorTypes = some ets →
        contractErrorCode s = some k →
        lookupLastNat ets k = some m →
        tx.result = .ok (ResultReturn.err m))
  ∧ (∀ s, e.toStringVal = some s →
        tx.parseError s = none →
        tx.result = .error (.raised e))
  ∧ (e.toStringVal = none → tx.result = .error (.raised e)) := by
  refine ⟨?_, ?_, ?_⟩
  · intro s k ets m hs hets hcode hm
    simp only [AssembledTransaction.result, hsd, hparse, implementsToString, hs,
      Option.isSome_some, Bool.not_true, Bool.false_eq_true, if_false,
      AssembledTransaction.parseError, hets, hcode, hm]
  · intro s hs hnone
    simp only [AssembledTransaction.result, hsd, hparse, implementsToString, hs,
      Option.isSome_some, Bool.not_true, Bool.false_eq_true, if_false, hnone]
  · intro hs
    simp only [AssembledTransaction.result, hsd, hparse, implementsToString, hs,
      Option.isSome_none, Bool.not_false, if_true]

/-- C6 witness: a parse failure stringifying to a registered contract error
code 3 makes `result` return the `Err`-tagged registered message. -/
theorem result_contract_error_mapping_witness :
    AssembledTransaction.result txC6 = .ok (ResultReturn.err ⟨"insufficient"⟩) := by
  have H := result_contract_error_mapping txC6 ⟨⟨[], ScVal.scvU32 1⟩, sampleTd⟩
    ⟨some "Error(Contract, #3)"⟩ rfl rfl
  exact H.1 "Error(Contract, #3)" 3 [(3, ⟨"insufficient"⟩)] ⟨"insufficient"⟩
    rfl rfl (by decide) (by decide)

/-- C4 (code bug): on a built transaction with zero candidate auth entries,
`signAuthEntries` fails with `NoSignatureNeeded` — not with
`NoUnsignedNonInvokerAuthEntries` as documented — because the guard
`if (!needsNonInvokerSigningBy)` tests the truthiness of an array, which is
always truthy; indeed no input whatsoever can produce
`NoUnsignedNonInvokerAuthEntries`. -/
theorem signAuthEntries_unsigned_guard_dead :
    AssembledTransaction.signAuthEntries txC4zero 0 authIdFn
      (some sampleAuthSigner) (some "GA") = .error SdkError.noSignatureNeeded
  ∧ ∀ (T : Type) (tx : AssembledTransaction T) (exp : Nat)
      (authz : SorobanAuthorizationEntry → Nat → String → SorobanAuthorizationEntry)
      (sa : Option (String → String)) (pk : Option String),
      tx.signAuthEntries exp authz sa pk
        ≠ .error SdkError.noUnsignedNonInvokerAuthEntries := by
  constructor
  · rfl
  · intro T tx exp authz sa pk h
    unfold AssembledTransaction.signAuthEntries at h
    split at h
    · simp at h
    · split at h
      next needsErr hne =>
        injection h with h2
        rcases needsNonInvokerSigningBy_error_generic tx false needsErr hne
          with ⟨msg, hmsg⟩
        rw [hmsg] at h2
        cases h2
      next needs hok =>
        split at h
        next hfalsy => simp [jsArrayFalsy] at hfalsy
        · repeat' split at h
          all_goals
            by_cases hmem : (pk <|> tx.options.publicKey).getD "" ∈ needs
          all_goals
            cases hsa : (sa <|> tx.options.signAuthEntry) <;> simp [hsa, hmem] at h

/-- C7: when submission is acknowledged `PENDING` but every poll within the
budget returns `NOT_FOUND`, `SentTransaction.send` fails with
`TransactionStillPending` while retaining every recorded poll attempt:
`getTransactionResponseAll` holds at least one response and
`getTransactionResponse` is its last element. -/
theorem sent_send_still_pending {T : Type} (st : SentTransaction T) (b : Tx)
    (sd : SimulationData) (sf : Tx → Tx) (upd : Bool) (now : Nat)
    (sendRpc : Tx → SendTransactionResponse)
    (getRpc : String → Nat → GetTransactionResponse)
    (hb : st.assembled.built = some b)
    (hsd : simulationDataCore st.assembled = .ok sd)
    (hsend : ∀ t, (sendRpc t).status = "PENDING")
    (hpoll : ∀ hash j, (getRpc hash j).status = GetTransactionStatus.NOT_FOUND) :
    (SentTransaction.send st sf upd now sendRpc getRpc).2
        = some SdkError.transactionStillPending
  ∧ ∃ all,
      (SentTransaction.send st sf upd now sendRpc getRpc).1.getTransactionResponseAll
          = some all
      ∧ 1 ≤ all.length
      ∧ (SentTransaction.send st sf upd now sendRpc getRpc).1.getTransactionResponse
          = all.getLast? := by
  cases upd with
  | false =>
    obtain ⟨lastResp, hlast, hstat, hlen⟩ :=
      withExponentialBackoff_last_status
        (getRpc (sendRpc (sf b)).hash)
        (fun r => r.status == GetTransactionStatus.NOT_FOUND)
        (st.assembled.options.timeoutInSeconds.getD DEFAULT_TIMEOUT)
        GetTransactionStatus.NOT_FOUND (fun j => hpoll _ j)
    refine ⟨?_, _, ?_, hlen, ?_⟩ <;>
      simp [SentTransaction.send, hb, hsend, hlast, hstat]
  | true =>
    obtain ⟨lastResp, hlast, hstat, hlen⟩ :=
      withExponentialBackoff_last_status
        (getRpc (sendRpc (sf { b with
          timebounds := ⟨0, now + st.assembled.options.timeoutInSeconds.getD DEFAULT_TIMEOUT⟩
        , sorobanData := some sd.transactionData })).hash)
        (fun r => r.status == GetTransactionStatus.NOT_FOUND)
        (st.assembled.options.timeoutInSeconds.getD DEFAULT_TIMEOUT)
        GetTransactionStatus.NOT_FOUND (fun j => hpoll _ j)
    refine ⟨?_, _, ?_, hlen, ?_⟩ <;>
      simp [SentTransaction.send, hb, hsd, hsend, hlast, hstat]

/-- C7 witness: a concrete `send` whose RPC always acknowledges `PENDING`
and always polls `NOT_FOUND` within a one-second budget. -/
theorem sent_send_still_pending_witness :
    (SentTransaction.send stC7 id false 0 sendRpcC7 getRpcC7).2
        = some SdkError.transactionStillPending
  ∧ ∃ all,
      (SentTransaction.send stC7 id false 0 sendRpcC7 getRpcC7).1.getTransactionResponseAll
          = some all
      ∧ 1 ≤ all.length
      ∧ (SentTransaction.send stC7 id false 0 sendRpcC7 getRpcC7).1.getTransactionResponse
          = all.getLast? :=
  sent_send_still_pending stC7 sampleTx0 ⟨⟨[], ScVal.scvU32 1⟩, sampleTd⟩ id false 0
    sendRpcC7 getRpcC7 rfl rfl (fun _ => rfl) (fun _ _ => rfl)

/-- Under duplicate-free function names, `getFunc`'s `find?` locates exactly
the member descriptor with the sought name. -/
theorem find?_name_eq {l : List FuncSpec} {f : FuncSpec}
    (hf : f ∈ l) (hnd : (l.map FuncSpec.name).Nodup) :
    l.find? (fun g => g.name == f.name) = some f := by
  induction l with
  | nil => cases hf
  | cons g gs ih =>
    rcases List.mem_cons.mp hf with rfl | hmem
    · simp [List.find?]
    · have hne : (g.name == f.name) = false := by
        rw [beq_eq_false_iff_ne]
        intro he
        have hn : f.name ∈ gs.map FuncSpec.name := List.mem_map_of_mem _ hmem
        rw [← he] at hn
        exact (List.nodup_cons.mp hnd).1 hn
      simp only [List.find?_cons, hne]
      exact ih hmem (List.nodup_cons.mp hnd).2

/-- `getFunc` returns the member descriptor itself when names are
duplicate-free. -/
theorem getFunc_eq_of_nodup {T : Type} (spec : ContractSpec T) (f : FuncSpec)
    (hf : f ∈ spec.funcs) (hnd : (spec.funcs.map FuncSpec.name).Nodup) :
    spec.getFunc f.name = some f :=
  find?_name_eq hf hnd

/-- Looking up a name in bindings attached per function descriptor yields the
binding computed for the member carrying that name, when names are
duplicate-free. -/
theorem jsGet_map_bindings (h : FuncSpec → MethodShape) :
    ∀ (l : List FuncSpec) (f : FuncSpec), f ∈ l → (l.map FuncSpec.name).Nodup →
      jsGet (l.map fun g => (g.name, h g)) f.name = some (h f) := by
  intro l
  induction l with
  | nil => intro f hf _; cases hf
  | cons g gs ih =>
    intro f hf hnd
    rw [List.map_cons, jsGet_cons]
    rcases List.mem_cons.mp hf with rfl | hmem
    · have hnone : jsGet (gs.map fun g2 => (g2.name, h g2)) f.name = none := by
        apply jsGet_eq_none_of_not_mem
        intro kv hkv
        rcases List.mem_map.mp hkv with ⟨g2, hg2, rfl⟩
        intro he
        exact (List.nodup_cons.mp hnd).1 (he ▸ List.mem_map_of_mem _ hg2)
      rw [hnone, if_pos rfl]
      rfl
    · rw [ih f hmem (List.nodup_cons.mp hnd).2]
      rfl

/-- C8 (amended): in the src/contract ContractClient, under duplicate-free
function names, the callable exposed for every function `f` of
`spec.funcs()` takes only an optional MethodOptions argument when `f` has
zero declared inputs, and an args record plus optional MethodOptions
otherwise. -/
theorem client_binding_arity {T : Type} (spec : ContractSpec T) (f : FuncSpec)
    (hf : f ∈ spec.funcs) (hnd : (spec.funcs.map FuncSpec.name).Nodup) :
    jsGet (ContractClient.methodBindings spec) f.name
      = some (if f.inputs.length == 0 then MethodShape.optionsOnly
              else MethodShape.argsAndOptions) := by
  have h1 := jsGet_map_bindings (fun g =>
    match spec.getFunc g.name with
    | some f2 => if f2.inputs.length == 0 then MethodShape.optionsOnly
                 else MethodShape.argsAndOptions
    | none => MethodShape.argsAndOptions) spec.funcs f hf hnd
  rw [show ContractClient.methodBindings spec
      = spec.funcs.map (fun g => (g.name,
          match spec.getFunc g.name with
          | some f2 => if f2.inputs.length == 0 then MethodShape.optionsOnly
                       else MethodShape.argsAndOptions
          | none => MethodShape.argsAndOptions)) from rfl]
  rw [h1]
  simp only [getFunc_eq_of_nodup spec f hf hnd]

/-- C8 witness: the zero-input function of a concrete spec is bound as an
options-only callable by the src/contract client. -/
theorem client_binding_arity_witness :
    jsGet (ContractClient.methodBindings specC8) "inc" = some MethodShape.optionsOnly :=
  client_binding_arity specC8 ⟨"inc", []⟩ (by decide) (by decide)

/-- C8 counterexample: the legacy ContractClient (contract_client/client.ts)
binds the zero-input function `inc` as the two-parameter
`(args, methodOptions)` callable, not as the options-only callable the claim
requires. -/
theorem legacy_client_binding_arity_counterexample :
    specC8.getFunc "inc" = some ⟨"inc", []⟩
  ∧ jsGet (legacyMethodBindings specC8) "inc" = some MethodShape.argsAndOptions
  ∧ MethodShape.argsAndOptions ≠ MethodShape.optionsOnly := by
  exact ⟨by decide, by decide, by decide⟩

/-- C9 (amended): in the src/contract ContractClient's merge, per-invocation
method-option bindings take precedence over client-option bindings for every
overlapping runtime key, while in the legacy client the spread order is
reversed so client options win; both clients pre-populate `errorTypes` from
`spec.errorCases()` and bind `parseResultXdr` to `spec.funcResToNative` for
the method (and hand the MethodOptions keys through from the per-invocation
record at their declared types). -/
theorem method_options_merge_semantics :
    (∀ (α : Type) (clientProps methodProps : List (String × α)) (k : String),
        jsGet (clientCallSpreadProps clientProps methodProps) k
          = (jsGet methodProps k).or (jsGet clientProps k))
  ∧ (∀ (α : Type) (methodProps clientProps : List (String × α)) (k : String),
        jsGet (legacyCallSpreadProps methodProps clientProps) k
          = (jsGet clientProps k).or (jsGet methodProps k))
  ∧ (∀ (T : Type) (spec : ContractSpec T) (options : ClientOptions) (method : String)
        (args : Option (List (String × ScVal))) (mo : MethodOptions),
        (ContractClient.assembleTransactionOptions spec options method args mo).errorTypes
            = some (errorTypesFromSpec spec)
        ∧ (ContractClient.assembleTransactionOptions spec options method args mo).parseResultXdr
            = spec.funcResToNative method
        ∧ (ContractClient.assembleTransactionOptions spec options method args mo).fee = mo.fee
        ∧ (ContractClient.assembleTransactionOptions spec options method args mo).timeoutInSeconds
            = mo.timeoutInSeconds
        ∧ (ContractClient.assembleTransactionOptions spec options method args mo).simulate
            = mo.simulate)
  ∧ (∀ (T : Type) (spec : ContractSpec T) (co : ClientOptions) (method : String)
        (args : List (String × ScVal)) (mo : MethodOptions),
        (legacyAssembleTransactionOptions spec co method args mo).errorTypes
            = some (errorTypesFromSpec spec)
        ∧ (legacyAssembleTransactionOptions spec co method args mo).parseResultXdr
            = spec.funcResToNative method) := by
  refine ⟨?_, ?_, ?_, ?_⟩
  · intro α a b k; exact jsGet_append a b k
  · intro α m c k; exact jsGet_append m c k
  · intro T spec o m a mo; exact ⟨rfl, rfl, rfl, rfl, rfl⟩
  · intro T spec o m a mo; exact ⟨rfl, rfl⟩

/-- C9 counterexample: in the legacy client's spread order, a runtime key
present in both the per-invocation options and the client options resolves
to the client-level value, not the per-invocation one. -/
theorem legacy_method_options_precedence_counterexample :
    jsGet (legacyCallSpreadProps [("fee", "100")] [("fee", "500")]) "fee" = some "500"
  ∧ jsGet [("fee", "100")] "fee" = some "100"
  ∧ ("500" : String) ≠ "100" := by
  exact ⟨by decide, by decide, by decide⟩
